import Mathlib

/-!
Shallow embedding of the eagle::dasm disassembler sketch (src/src/example.cpp):
the basic_block record, the segment_dasm class with its cursor operations,
decode_current, get_branches, get_block and dump_section, and the worklist
exploration loop of main. The external Zydis decoder collaborator is modelled
as an oracle from a buffer offset to the instruction decoded there. Machine
loops are given explicit fuel; a result of none means the loop did not finish
within the given fuel.
-/

namespace Eagle.Dasm

/-- Decoded instruction descriptor, abstracting codec::dec::inst as filled by
ZydisDecoderDecodeFull: branching is false exactly when the decoded record has
ZYDIS_BRANCHING_NONE; operands holds, per operand, the absolute address that
ZydisCalcAbsoluteAddress resolves for it at the decode address (none when that
call does not succeed); length is the encoded length the decoder reports. -/
structure Inst where
  branching : Bool
  operands : List (Option Nat)
  length : Nat
deriving Repr, DecidableEq

/-- Zero-initialized instruction record: models the value-initialized
dec::inst_info that decode_current returns unchanged when the decoder reports
failure, because the Zyan status is discarded. -/
def zeroed_inst : Inst := { branching := false, operands := [], length := 0 }

/-- The basic_block record of the source: begin and end rvas, the two branch
slots, and the accumulated instruction list. The record is value-initialized
(all scalar fields 0, empty list) by basic_block block{} in get_block. -/
structure basic_block where
  rva_begin : Nat
  rva_end : Nat
  branch_one : Nat
  branch_two : Nat
  insts : List Inst
deriving Repr, DecidableEq

/-- State of one segment_dasm instance: the external decoder collaborator as an
oracle from a buffer offset to the instruction decoded at that offset (none
when the bytes there form no valid instruction), the buffer size, the rva
bounds of the segment, and the mutable cursor current_rva. -/
structure segment_dasm where
  zydis : Nat → Option Inst
  buffer_size : Nat
  rva_begin : Nat
  rva_end : Nat
  current_rva : Nat

/-- Getter for the current rva: returns the cursor field. -/
def get_current_rva (d : segment_dasm) : Nat := d.current_rva

/-- Updates the current rva: stores the new cursor and returns the old one,
paired here with the updated state. -/
def set_current_rva (d : segment_dasm) (rva : Nat) : Nat × segment_dasm :=
  (d.current_rva, { d with current_rva := rva })

/-- decode_current as written in the source: the local offset is initialized to
0 and never derived from the cursor, ZydisDecoderDecodeFull is invoked on the
buffer at that offset with its status discarded (a failed decode leaves the
zero-initialized record), and the second component of the returned pair is the
local offset — still 0 — rather than the decoded length. -/
def decode_current (d : segment_dasm) : Inst × Nat :=
  let offset : Nat := 0
  let decoded_instruction := (d.zydis offset).getD zeroed_inst
  (decoded_instruction, offset)

/-- get_branches as written in the source: decode via decode_current; for a
non-branching instruction push current_rva + size (size being the second pair
component); otherwise push, operand by operand, the absolute address that
ZydisCalcAbsoluteAddress resolves, skipping operands on which it fails. -/
def get_branches (d : segment_dasm) : List Nat :=
  let r := decode_current d
  if r.1.branching = false then
    [d.current_rva + r.2]
  else
    r.1.operands.filterMap id

/-- Modelled from the spec: the helper does_branch that get_block uses as its
loop guard is declared nowhere in the source. Per the spec it reports whether
the instruction at the current cursor is a control-transfer instruction,
returning 0 when it is not; here it is realized through decode_current of the
same instance. -/
def does_branch (d : segment_dasm) : Nat :=
  if (decode_current d).1.branching then 1 else 0

/-- The while loop of get_block: while does_branch is 0, decode, append the
result, grow rva_end by the returned size, and move the cursor to rva_end. -/
def get_block_loop : Nat → segment_dasm → basic_block → Option (segment_dasm × basic_block)
  | 0, _, _ => none
  | fuel + 1, d, block =>
    if does_branch d = 0 then
      let r := decode_current d
      let block2 := { block with insts := block.insts ++ [r.1], rva_end := block.rva_end + r.2 }
      let d2 := (set_current_rva d block2.rva_end).2
      get_block_loop fuel d2 block2
    else
      some (d, block)

/-- get_block as written in the source: set the cursor to rva, record
rva_begin from the cursor, run the loop over a value-initialized block, then
fill both branch slots from get_branches. The source reads the slots with
std::get on a vector; an absent index is modelled as 0, the value the
value-initialized field already holds. -/
def get_block (fuel : Nat) (d : segment_dasm) (rva : Nat) : Option basic_block :=
  let d1 := (set_current_rva d rva).2
  let block0 : basic_block :=
    { rva_begin := get_current_rva d1, rva_end := 0, branch_one := 0, branch_two := 0, insts := [] }
  match get_block_loop fuel d1 block0 with
  | none => none
  | some (d2, block) =>
    let branches := get_branches d2
    some { block with branch_one := branches.getD 0 0, branch_two := branches.getD 1 0 }

/-- The for loop of dump_section: for (int i = rva_current; i < rva_end;) with
no update of i anywhere in the body. The body then calls set_current_rva on
block.rva_end, a name not in scope in that method; the cursor target is
modelled as the advanced rva_current, a choice that cannot affect the guard,
which reads only i and the rva_end argument. -/
def dump_section_loop (rva_end_arg : Nat) : Nat → segment_dasm → Nat → Nat → List Inst → Option (List Inst)
  | 0, _, _, _, _ => none
  | fuel + 1, d, i, rva_current, insts =>
    if i < rva_end_arg then
      let r := decode_current d
      dump_section_loop rva_end_arg fuel (set_current_rva d (rva_current + r.2)).2 i
        (rva_current + r.2) (insts ++ [r.1])
    else
      some insts

/-- dump_section as written in the source: linear sweep from rva_begin_arg,
driven by the loop above. -/
def dump_section (fuel : Nat) (d : segment_dasm) (rva_begin_arg rva_end_arg : Nat) : Option (List Inst) :=
  dump_section_loop rva_end_arg fuel d rva_begin_arg rva_begin_arg []

/-- equals as written in the source: field-wise comparison of rva_begin,
rva_end and current_rva, and of nothing else. -/
def equals (d other : segment_dasm) : Bool :=
  other.rva_begin == d.rva_begin &&
    other.rva_end == d.rva_end &&
    other.current_rva == d.current_rva

/-- State of the exploration loop in main: the std::set of discovered rvas
(kept as a duplicate-free list), the result vector of blocks, and the deque
worklist with its front at the head. -/
structure explorer_state where
  discovered_rvas : List Nat
  blocks : List basic_block
  rva_queue : List Nat
deriving Repr, DecidableEq

/-- The std::set insertion: returns whether the element was newly inserted,
together with the updated set. -/
def set_insert (s : List Nat) (x : Nat) : Bool × List Nat :=
  if x ∈ s then (false, s) else (true, s ++ [x])

/-- The insert_branch lambda of main: skip the sentinel (-1 compared against a
uint32_t, hence 4294967295), insert into the discovered set, and push onto the
worklist exactly when the insertion added a new element. -/
def insert_branch (st : explorer_state) (branch_rva : Nat) : explorer_state :=
  if branch_rva = 4294967295 then st
  else
    let r := set_insert st.discovered_rvas branch_rva
    if r.1 then
      { st with discovered_rvas := r.2, rva_queue := st.rva_queue ++ [branch_rva] }
    else
      { st with discovered_rvas := r.2 }

/-- The while loop of main with the guard exactly as the source writes it: the
body runs while rva_queue.empty() holds. The body — which the source writes as
a get_block call carrying no address, over a queue it never pops — is left as
a parameter, so every statement below holds for any body whatsoever. -/
def explore_loop (body : explorer_state → explorer_state) : Nat → explorer_state → explorer_state
  | 0, st => st
  | fuel + 1, st =>
    if st.rva_queue.isEmpty then explore_loop body fuel (body st) else st

/-- The exploration run of main: empty discovered set and block list, the seed
pushed onto the worklist, then the while loop. -/
def explore (body : explorer_state → explorer_state) (fuel : Nat) (start_rva : Nat) : explorer_state :=
  explore_loop body fuel { discovered_rvas := [], blocks := [], rva_queue := [start_rva] }

/-! Concrete fixtures used by the statements below. -/

/-- An unconditional 5-byte jump whose single resolvable operand targets
0x2000. -/
def jump_inst : Inst := { branching := true, operands := [some 0x2000], length := 5 }

/-- A buffer of 5 bytes at rva 0x1000 whose only instruction is jump_inst. -/
def dasm_jump : segment_dasm :=
  { zydis := fun _ => some jump_inst, buffer_size := 5,
    rva_begin := 0x1000, rva_end := 0x1005, current_rva := 0 }

/-- A non-branching instruction of length 2. -/
def plain_inst : Inst := { branching := false, operands := [], length := 2 }

/-- A conditional branch of length 2: the first operand resolves to the taken
target 0xABCD, the second (a register or flags operand) does not resolve. -/
def cond_inst : Inst := { branching := true, operands := [some 0xABCD, none], length := 2 }

/-- A segment at rva 0x1000 whose decoder yields plain_inst, cursor at
0x1000. -/
def dasm_plain : segment_dasm :=
  { zydis := fun _ => some plain_inst, buffer_size := 8,
    rva_begin := 0x1000, rva_end := 0x1008, current_rva := 0x1000 }

/-- A segment at rva 0x1000 whose decoder yields cond_inst, cursor at
0x1000. -/
def dasm_cond : segment_dasm :=
  { zydis := fun _ => some cond_inst, buffer_size := 8,
    rva_begin := 0x1000, rva_end := 0x1008, current_rva := 0x1000 }

/-- A branching instruction of length 2 resolving to 0x9000, distinct from
plain_inst. -/
def branch_inst : Inst := { branching := true, operands := [some 0x9000], length := 2 }

/-- A 4-byte segment at rva 0x1000 holding two different instructions: the
non-branching plain_inst at buffer offset 0 and branch_inst at offset 2. -/
def dasm_mixed : segment_dasm :=
  { zydis := fun o => if o = 0 then some plain_inst else if o = 2 then some branch_inst else none,
    buffer_size := 4, rva_begin := 0x1000, rva_end := 0x1004, current_rva := 0x1000 }

/-- A segment whose decoder fails on every window. -/
def dasm_fail : segment_dasm :=
  { zydis := fun _ => none, buffer_size := 4,
    rva_begin := 0x1000, rva_end := 0x1004, current_rva := 0x1000 }

/-- The block the source builds for dasm_jump at seed 0x1000. -/
def block_jump : basic_block :=
  { rva_begin := 0x1000, rva_end := 0, branch_one := 0x2000, branch_two := 0, insts := [] }

/-! Theorems settling the claims. -/

/-- Claim C1: a successful get_block is claimed to tile [rva_begin, rva_end)
with rva_end equal to rva_begin plus the total decoded length, and the
control-transfer instruction last in the list. On the source, for the buffer
holding just the 5-byte jump at rva 0x1000, get_block returns a block with
rva_begin = 0x1000 but rva_end = 0 — rva_end is accumulated from its zero
initializer, never from rva_begin — and an empty instruction list, because the
while guard stops before the branching instruction is ever decoded into the
block. So rva_end < rva_begin, the interval is not tiled, and the block holds
no control-transfer instruction at all. -/
theorem get_block_breaks_tiling_c1 :
    get_block 9 dasm_jump 0x1000 = some block_jump
    ∧ block_jump.rva_end < block_jump.rva_begin
    ∧ block_jump.insts = [] := by
  refine ⟨by decide, by decide, rfl⟩

/-- Claim C2: the discovered set is claimed to contain the seed from the moment
the seed is enqueued, with each address explored at most once. In the source
the seed is pushed onto rva_queue without any insertion into discovered_rvas,
and the loop guard is rva_queue.empty(), so for every loop body, fuel and seed
the run ends with an empty discovered set — the seed not in it — and no block
ever built. -/
theorem explorer_no_seed_discovery_c2 (body : explorer_state → explorer_state)
    (fuel start_rva : Nat) :
    (explore body fuel start_rva).discovered_rvas = []
    ∧ start_rva ∉ (explore body fuel start_rva).discovered_rvas
    ∧ (explore body fuel start_rva).blocks = [] := by
  cases fuel <;> simp [explore, explore_loop]

/-- Claim C3: the loop is claimed to run its body exactly while the worklist is
non-empty, and on the 5-byte-jump scenario with seed 0x1000 to yield two
blocks and discovered set containing 0x1000 and 0x2000. The guard the source
writes is rva_queue.empty(): with the seed enqueued the queue is non-empty, so
the body never runs and the run ends at once with no blocks, an empty
discovered set, and the seed still sitting in the queue — for any body and any
fuel. -/
theorem explorer_loop_never_runs_c3 (body : explorer_state → explorer_state) (fuel : Nat) :
    explore body fuel 0x1000 =
      { discovered_rvas := [], blocks := [], rva_queue := [0x1000] } := by
  cases fuel <;> simp [explore, explore_loop]

/-- The loop index i of dump_section is initialized from rva_begin and never
modified, so once i < rva_end holds the guard never turns false: the loop
exhausts any amount of fuel without returning. -/
theorem dump_section_loop_stuck (rva_end_arg : Nat) :
    ∀ fuel d i rva_current insts, i < rva_end_arg →
      dump_section_loop rva_end_arg fuel d i rva_current insts = none := by
  intro fuel
  induction fuel with
  | zero => intro d i c insts h; rfl
  | succ n ih =>
    intro d i c insts h
    rw [dump_section_loop, if_pos h]
    exact ih _ _ _ _ h

/-- Claim C4: dump_section over a region of N whole instructions is claimed to
terminate and return exactly N instructions. In the source the loop index i
never advances, so whenever rva_begin < rva_end the sweep never terminates: no
finite fuel makes the call return. -/
theorem dump_section_diverges_c4 (fuel : Nat) (d : segment_dasm) (b e : Nat) (h : b < e) :
    dump_section fuel d b e = none :=
  dump_section_loop_stuck e fuel d b b [] h

/-- Witness for claim C4 at the region [0x1000, 0x1002) over the plain-inst
buffer, a region of one whole 2-byte instruction. -/
theorem dump_section_diverges_c4_witness :
    (0x1000 : Nat) < 0x1002 ∧ dump_section 7 dasm_plain 0x1000 0x1002 = none :=
  ⟨by decide, dump_section_diverges_c4 7 dasm_plain 0x1000 0x1002 (by decide)⟩

/-- Claim C5: successors_of is claimed to return [A + len] for a non-branching
instruction and [A + len, T] for a conditional branch at A with taken target
T. On the source, a non-branching length-2 instruction at 0x1000 yields
[0x1000] — decode_current reports size 0, so the sum is the current address
itself — and a conditional branch at 0x1000 with taken target 0xABCD yields
only [0xABCD]: the fallthrough 0x1002 is never produced, so neither the count
nor the claimed ordering holds. -/
theorem get_branches_wrong_c5 :
    get_branches dasm_plain = [0x1000] ∧ get_branches dasm_cond = [0xABCD] := by
  decide

/-- Claim C6: a decode attempt at an address outside [base, base + size) is
claimed to fail with BoundsError before the decoder is reached. The source
contains no bounds check and no error path at all: decode_current consults the
decoder oracle unconditionally for every state, and get_block at seed 0x5000 —
outside [0x1000, 0x1005) — still returns a block rather than failing. -/
theorem no_bounds_check_c6 :
    (∀ d : segment_dasm, decode_current d = ((d.zydis 0).getD zeroed_inst, 0))
    ∧ dasm_jump.rva_end ≤ 0x5000
    ∧ get_block 9 dasm_jump 0x5000 =
        some { rva_begin := 0x5000, rva_end := 0, branch_one := 0x2000,
               branch_two := 0, insts := [] } := by
  exact ⟨fun d => rfl, by decide, by decide⟩

/-- Claim C7: decode_current is claimed to decode the bytes at buffer offset
cursor minus base. In the source the offset is the constant 0: over a buffer
whose offsets 0 and 2 hold different instructions, decoding after
set_current_rva 0x1000 and decoding after set_current_rva 0x1002 return the
same result. -/
theorem decode_ignores_cursor_c7 :
    dasm_mixed.zydis 0 ≠ dasm_mixed.zydis 2
    ∧ decode_current (set_current_rva dasm_mixed 0x1000).2
        = decode_current (set_current_rva dasm_mixed 0x1002).2 := by
  decide

/-- With a decoder failing at offset 0, decode_current yields the
zero-initialized, non-branching record, so the get_block loop guard never
turns false: the loop exhausts any fuel without returning. -/
theorem get_block_loop_fail_stuck :
    ∀ fuel (d : segment_dasm) (block : basic_block), d.zydis 0 = none →
      get_block_loop fuel d block = none := by
  intro fuel
  induction fuel with
  | zero => intro d block h; rfl
  | succ n ih =>
    intro d block h
    have hb : does_branch d = 0 := by
      simp [does_branch, decode_current, h, zeroed_inst]
    rw [get_block_loop, if_pos hb]
    exact ih _ _ h

/-- Claim C8: a decode failure during get_block is claimed to abort block
construction and propagate the error to the caller. The source discards the
Zydis status: decode_current on the failing decoder returns the
zero-initialized record as an ordinary success value, and get_block neither
reports an error — no error channel exists anywhere in the class — nor ever
returns: for every fuel the loop is still running, so no block and no error
reach the caller. -/
theorem decode_failure_swallowed_c8 :
    decode_current dasm_fail = (zeroed_inst, 0)
    ∧ ∀ fuel, get_block fuel dasm_fail 0x1000 = none := by
  refine ⟨rfl, fun fuel => ?_⟩
  have h := get_block_loop_fail_stuck fuel (set_current_rva dasm_fail 0x1000).2
    { rva_begin := get_current_rva (set_current_rva dasm_fail 0x1000).2, rva_end := 0,
      branch_one := 0, branch_two := 0, insts := [] } rfl
  simp [get_block, h]

/-- Claim C9: set_current_rva returns the cursor value held immediately before
the call and leaves the cursor at the new address, so a following
get_current_rva returns it; get_current_rva is a pure read that changes
nothing, and set_current_rva touches no field other than the cursor. -/
theorem cursor_contract_c9 (d : segment_dasm) (a : Nat) :
    (set_current_rva d a).1 = get_current_rva d
    ∧ get_current_rva (set_current_rva d a).2 = a
    ∧ (set_current_rva d a).2 = { d with current_rva := a } := by
  exact ⟨rfl, rfl, rfl⟩

/-- Claim C10: equals compares exactly rva_begin, rva_end and current_rva, is
insensitive to the decoder oracle and the buffer size, and on that three-field
projection is reflexive, symmetric and transitive. -/
theorem equals_contract_c10 (a b c : segment_dasm) (f : Nat → Option Inst) (n : Nat) :
    (equals a b = true ↔
      a.rva_begin = b.rva_begin ∧ a.rva_end = b.rva_end ∧ a.current_rva = b.current_rva)
    ∧ equals { a with zydis := f, buffer_size := n } b = equals a b
    ∧ equals a a = true
    ∧ (equals a b = true ↔ equals b a = true)
    ∧ (equals a b = true → equals b c = true → equals a c = true) := by
  simp only [equals, Bool.and_eq_true, beq_iff_eq]
  refine ⟨?_, by simp, by simp, ?_, ?_⟩ <;> omega

end Eagle.Dasm
